import Mathlib

/-
  Shallow embedding of the azure-wiki-api repository.

  The upstream Azure DevOps service is modelled as an oracle (`Upstream`):
  for each wiki it yields the page list that `list_pages` decodes from the
  response, and for each content request (by path or by id) it yields either
  a successful response body (whose optional "content" field the code reads)
  or a raised exception carrying the message `str(exc)`.

  Strings are lists of characters; Python's `str.lower` is a character-wise
  map and `in` is substring containment.
-/

namespace AzureWiki

abbrev Str := List Char

/-- Python str.lower applied character-wise. -/
def lowerList (s : Str) : Str := s.map Char.toLower

/-- Does the second list start with the first? -/
def startsWithList : Str → Str → Bool
  | [], _ => true
  | _ :: _, [] => false
  | a :: as, b :: bs => a == b && startsWithList as bs

/-- Python substring containment: needle occurs contiguously in the haystack. -/
def hasSubstr (n : Str) : Str → Bool
  | [] => n.isEmpty
  | c :: t => startsWithList n (c :: t) || hasSubstr n t

/-- A page record as decoded from the list-pages response: the code reads
the optional keys "path" and "id". -/
structure Page where
  path : Option Str
  id : Option Int
deriving DecidableEq

/-- Outcome of one upstream content request: a decoded body whose optional
"content" key the code reads, or a raised exception with message str(exc). -/
inductive FetchResult where
  | ok (content : Option Str)
  | exn (msg : Str)
deriving DecidableEq

/-- The fixed upstream state: page list per wiki, and the outcome of every
content request by path or by id. -/
structure Upstream where
  pages : String → List Page
  fetchPath : String → Str → FetchResult
  fetchId : String → Int → FetchResult

/-- What get_page_content does: raise ValueError before any network call,
or issue the path-based or the id-based request and return its outcome. -/
inductive GPCResult where
  | invalidArgument
  | fetchedByPath (path : Str) (r : FetchResult)
  | fetchedById (id : Int) (r : FetchResult)
deriving DecidableEq

/-- Python truthiness of an Optional[str] argument. -/
def truthyOptStr : Option Str → Bool
  | none => false
  | some s => !s.isEmpty

/-- Python truthiness of an Optional[int] argument. -/
def truthyOptInt : Option Int → Bool
  | none => false
  | some i => i != 0

/-- The ValueError message raised by get_page_content. -/
def exactlyOneMsg : Str :=
  ("Exactly one of page_path or page_id must be supplied to get_page_content").data

/-- get_page_content (azure_devops_wiki_tool.py, lines 216-232): raises
ValueError when page_path and page_id are both None, or both truthy;
otherwise issues the path request when page_path is not None, else the id
request. -/
def get_page_content (u : Upstream) (wiki : String)
    (page_path : Option Str) (page_id : Option Int) : GPCResult :=
  if (page_path.isNone && page_id.isNone)
      || (truthyOptStr page_path && truthyOptInt page_id) then
    .invalidArgument
  else
    match page_path with
    | some p => .fetchedByPath p (u.fetchPath wiki p)
    | none =>
      match page_id with
      | some i => .fetchedById i (u.fetchId wiki i)
      | none => .fetchedById 0 (u.fetchId wiki 0)

/-- One crawl result object: "path" and "content" keys, plus an "error" key
only when the fetch raised. -/
structure Entry where
  path : Str
  content : Option Str
  error : Option Str
deriving DecidableEq

/-- The try/except body of crawl_wiki for one page: a content entry on
success, an entry with content None and error str(exc) when anything is
raised. -/
def crawlEntry (u : Upstream) (wiki : String) (path : Str) : Entry :=
  match get_page_content u wiki (some path) none with
  | .invalidArgument => ⟨path, none, some exactlyOneMsg⟩
  | .fetchedByPath _ (.ok c) => ⟨path, c, none⟩
  | .fetchedByPath _ (.exn m) => ⟨path, none, some m⟩
  | .fetchedById _ (.ok c) => ⟨path, c, none⟩
  | .fetchedById _ (.exn m) => ⟨path, none, some m⟩

/-- The crawl_wiki loop (lines 251-268): pages with a falsy path (missing
or empty) are skipped; every other page contributes exactly one entry. -/
def crawlPages (u : Upstream) (wiki : String) : List Page → List Entry
  | [] => []
  | pg :: rest =>
    match pg.path with
    | none => crawlPages u wiki rest
    | some path =>
      if path.isEmpty then crawlPages u wiki rest
      else crawlEntry u wiki path :: crawlPages u wiki rest

/-- list_pages (lines 167-182): returns data.get("value", []) in the order
received from upstream. -/
def list_pages (u : Upstream) (wiki : String) : List Page := u.pages wiki

/-- crawl_wiki (lines 234-269). -/
def crawl_wiki (u : Upstream) (wiki : String) : List Entry :=
  crawlPages u wiki (list_pages u wiki)

/-- search_keyword (lines 271-301): case-insensitive substring filter over
the crawl, treating absent content as the empty string. -/
def search_keyword (u : Upstream) (wiki : String) (keyword : Str) : List Entry :=
  let keyword_lower := lowerList keyword
  (crawl_wiki u wiki).filter
    (fun entry => hasSubstr keyword_lower (lowerList (entry.content.getD [])))

/-- One match object of the /search route: "path" and "snippet" keys. -/
structure SearchMatch where
  path : Str
  snippet : Str
deriving DecidableEq

/-- search_route (app_server.py, lines 44-57): crawl, then collect
path and content[:250] for every page whose content contains the query
case-insensitively, absent content read as the empty string. -/
def search_route (u : Upstream) (wiki : String) (keyword : Str) : List SearchMatch :=
  let lower := lowerList keyword
  (crawl_wiki u wiki).filterMap (fun page =>
    let content := page.content.getD []
    if hasSubstr lower (lowerList content) then
      some ⟨page.path, content.take 250⟩
    else none)

/-- Base URL of AzureDevOpsWikiTool (azure_devops_wiki_tool.py, line 114). -/
def tool_base_url (org project : String) : String :=
  "https://dev.azure.com/" ++ org ++ "/" ++ project ++ "/_apis/wiki"

/-- The full request URL built by the tool's list_pages (line 180): the only
query parameter is api-version. -/
def tool_list_pages_url (org project wiki api_version : String) : String :=
  tool_base_url org project ++ "/wikis/" ++ wiki ++ "/pages?api-version=" ++ api_version

/-- Base URL of app.py (line 28). -/
def app_base_url (org project : String) : String :=
  "https://dev.azure.com/" ++ org ++ "/" ++ project ++ "/_apis"

/-- The request URL built by app.py's list_pages (line 52). -/
def app_list_pages_url (org project wiki : String) : String :=
  app_base_url org project ++ "/wiki/wikis/" ++ wiki ++ "/pages"

/-- The query parameters sent by app.py's list_pages (line 53). -/
def app_list_pages_params : List (String × String) :=
  [("api-version", "7.1-preview.1"), ("recursionLevel", "full")]

/-- The paths of the listed pages that crawl_wiki does not skip: present and
non-empty, in listing order. -/
def listedPaths : List Page → List Str
  | [] => []
  | pg :: rest =>
    match pg.path with
    | none => listedPaths rest
    | some p => if p.isEmpty then listedPaths rest else p :: listedPaths rest

/-- Upstream state whose single listed page has no path key. -/
def uNoPath : Upstream :=
  ⟨fun _ => [⟨none, some 1⟩], fun _ _ => .ok none, fun _ _ => .ok none⟩

/-- Upstream state whose single page fetch raises an exception whose
message stringifies to the empty string. -/
def uEmptyMsg : Upstream :=
  ⟨fun _ => [⟨some ['/', 'a'], none⟩], fun _ _ => .exn [], fun _ _ => .ok none⟩

/-- Upstream state whose single page fetch raises with message "boom". -/
def uBoom : Upstream :=
  ⟨fun _ => [⟨some ['a'], none⟩], fun _ _ => .exn ['b', 'o', 'o', 'm'],
   fun _ _ => .ok none⟩

/-- Upstream state with one page /H whose content is "Wel". -/
def uHome : Upstream :=
  ⟨fun _ => [⟨some ['/', 'H'], some 7⟩],
   fun _ _ => .ok (some ['W', 'e', 'l']), fun _ _ => .ok none⟩

/-- Upstream state with eleven pages whose content all contains "a". -/
def uEleven : Upstream :=
  ⟨fun _ => List.replicate 11 ⟨some ['a'], none⟩,
   fun _ _ => .ok (some ['a']), fun _ _ => .ok none⟩

/-- Upstream state agreeing with uIdB on pages and path fetches. -/
def uIdA : Upstream :=
  ⟨fun _ => [⟨some ['a'], some 1⟩], fun _ _ => .ok (some ['a']),
   fun _ _ => .ok none⟩

/-- Upstream state differing from uIdA only in the unused id-based fetches. -/
def uIdB : Upstream :=
  ⟨fun _ => [⟨some ['a'], some 1⟩], fun _ _ => .ok (some ['a']),
   fun _ _ => .exn ['z']⟩

theorem hasSubstr_nil (s : Str) : hasSubstr [] s = true := by
  cases s <;> simp [hasSubstr, startsWithList, List.isEmpty]

theorem gpc_path (u : Upstream) (w : String) (p : Str) :
    get_page_content u w (some p) none = .fetchedByPath p (u.fetchPath w p) := by
  simp [get_page_content, truthyOptStr, truthyOptInt]

theorem crawlEntry_ok {u : Upstream} {w : String} {p : Str} {c : Option Str}
    (h : u.fetchPath w p = .ok c) : crawlEntry u w p = ⟨p, c, none⟩ := by
  unfold crawlEntry
  rw [gpc_path, h]

theorem crawlEntry_exn {u : Upstream} {w : String} {p m : Str}
    (h : u.fetchPath w p = .exn m) : crawlEntry u w p = ⟨p, none, some m⟩ := by
  unfold crawlEntry
  rw [gpc_path, h]

theorem crawlPages_map_path (u : Upstream) (w : String) (l : List Page) :
    (crawlPages u w l).map Entry.path = listedPaths l := by
  induction l with
  | nil => rfl
  | cons pg rest ih =>
    cases hp : pg.path with
    | none => simp [crawlPages, listedPaths, hp, ih]
    | some p =>
      cases he : p.isEmpty with
      | true => simp [crawlPages, listedPaths, hp, he, ih]
      | false =>
        cases hf : u.fetchPath w p with
        | ok c => simp [crawlPages, listedPaths, hp, he, ih, crawlEntry_ok hf]
        | exn m => simp [crawlPages, listedPaths, hp, he, ih, crawlEntry_exn hf]

theorem crawl_map_path (u : Upstream) (w : String) :
    (crawl_wiki u w).map Entry.path = listedPaths (list_pages u w) :=
  crawlPages_map_path u w (list_pages u w)

theorem countP_listedPaths (p : Str) (l : List Page) :
    (listedPaths l).countP (fun q => q == p) =
      if p.isEmpty then 0
      else l.countP (fun pg => pg.path == some p) := by
  induction l with
  | nil => cases p.isEmpty <;> simp [listedPaths]
  | cons pg rest ih =>
    cases hp : pg.path with
    | none =>
      cases hpe : p.isEmpty <;>
        simp_all [listedPaths, List.countP_cons, hp]
    | some q =>
      cases hqe : q.isEmpty with
      | true =>
        cases hpe : p.isEmpty with
        | true => simp_all [listedPaths, List.countP_cons, hp]
        | false =>
          have hqp : (pg.path == some p) = false := by
            cases q with
            | nil =>
              cases p with
              | nil => simp [List.isEmpty] at hpe
              | cons a as => simp [hp]
            | cons b bs => simp [List.isEmpty] at hqe
          simp_all [listedPaths, List.countP_cons, hp]
      | false =>
        cases hpe : p.isEmpty with
        | true =>
          have hqp : (q == p) = false := by
            cases p with
            | nil =>
              cases q with
              | nil => simp [List.isEmpty] at hqe
              | cons b bs => simp
            | cons a as => simp [List.isEmpty] at hpe
          simp_all [listedPaths, List.countP_cons, hp]
        | false =>
          have hqp : (pg.path == some p) = (q == p) := by simp [hp]
          simp_all [listedPaths, List.countP_cons, hp]

theorem crawlPages_mem_exn (u : Upstream) (w : String) (l : List Page)
    (pg : Page) (p m : Str) (hmem : pg ∈ l) (hpath : pg.path = some p)
    (he : p.isEmpty = false) (hfail : u.fetchPath w p = .exn m) :
    Entry.mk p none (some m) ∈ crawlPages u w l := by
  induction l with
  | nil => cases hmem
  | cons hd rest ih =>
    rcases List.mem_cons.mp hmem with hhd | hrest
    · subst hhd
      simp [crawlPages, hpath, he, crawlEntry_exn hfail]
    · have hr := ih hrest
      cases hp : hd.path with
      | none => simpa [crawlPages, hp] using hr
      | some q =>
        cases hq : q.isEmpty with
        | true => simpa [crawlPages, hp, hq] using hr
        | false => simp [crawlPages, hp, hq, hr]

theorem crawlPages_congr (u1 u2 : Upstream) (w : String)
    (hfetch : ∀ x p, u1.fetchPath x p = u2.fetchPath x p) (l : List Page) :
    crawlPages u1 w l = crawlPages u2 w l := by
  induction l with
  | nil => rfl
  | cons pg rest ih =>
    cases hp : pg.path with
    | none => simp [crawlPages, hp, ih]
    | some p =>
      cases he : p.isEmpty with
      | true => simp [crawlPages, hp, he, ih]
      | false =>
        have hent : crawlEntry u1 w p = crawlEntry u2 w p := by
          cases hf : u2.fetchPath w p with
          | ok c =>
            rw [crawlEntry_ok hf, crawlEntry_ok ((hfetch w p).trans hf)]
          | exn m =>
            rw [crawlEntry_exn hf, crawlEntry_exn ((hfetch w p).trans hf)]
        simp [crawlPages, hp, he, ih, hent]

/-- Claim C1: for every upstream state and wiki, crawl_wiki yields exactly one
entry per page listed by list_pages whose path is present and non-empty, in
listing order: the entry paths are exactly the listed non-empty paths. -/
theorem c1_crawl_one_entry_per_listed_page (u : Upstream) (w : String) :
    (crawl_wiki u w).map Entry.path = listedPaths (list_pages u w) :=
  crawl_map_path u w

/-- Claim C2 counterexample: when the single page's fetch raises an exception
whose message stringifies to the empty string, the crawl entry records
content = none but its error description is the empty string, refuting the
claim that the error is always non-empty. -/
theorem c2_counterexample :
    crawl_wiki uEmptyMsg "W" = [⟨['/', 'a'], none, some []⟩] := by decide

/-- Claim C2 (amended): for every page whose content fetch raises with message
m, the crawl output contains the entry with content = none and error = m (the
exception's message, non-empty exactly when that message is), and every other
listed page is still processed (the entry paths still match the full listing). -/
theorem c2_fetch_failure_isolated (u : Upstream) (w : String) (pg : Page)
    (p m : Str) (hmem : pg ∈ list_pages u w) (hpath : pg.path = some p)
    (he : p.isEmpty = false) (hfail : u.fetchPath w p = .exn m) :
    Entry.mk p none (some m) ∈ crawl_wiki u w ∧
    (crawl_wiki u w).map Entry.path = listedPaths (list_pages u w) :=
  ⟨crawlPages_mem_exn u w (list_pages u w) pg p m hmem hpath he hfail,
   crawl_map_path u w⟩

/-- Claim C2 witness: in the state uBoom the fetch of page "a" raises with
message "boom" and the crawl records exactly that entry. -/
theorem c2_witness :
    Entry.mk ['a'] none (some ['b', 'o', 'o', 'm']) ∈ crawl_wiki uBoom "W" ∧
    (crawl_wiki uBoom "W").map Entry.path = listedPaths (list_pages uBoom "W") :=
  c2_fetch_failure_isolated uBoom "W" ⟨some ['a'], none⟩ ['a']
    ['b', 'o', 'o', 'm'] (by decide) rfl (by decide) rfl

/-- Claim C3 counterexample: with eleven matching pages and no way to supply a
limit, both search_keyword and the /search route return eleven matches, so the
claimed default limit of 10 (and any clamping or short-circuit) does not exist. -/
theorem c3_counterexample :
    (search_keyword uEleven "W" ['a']).length = 11 ∧
    ¬ (search_keyword uEleven "W" ['a']).length ≤ 10 ∧
    (search_route uEleven "W" ['a']).length = 11 := by
  refine ⟨?_, ?_, ?_⟩ <;> decide

/-- Claim C3 (amended): search takes no limit argument and performs an
exhaustive scan, returning every matching crawled entry (the result length is
the number of matching entries) as a subsequence of the crawl in listing
order; there is no default of 10, no clamp, and no short-circuit. -/
theorem c3_search_unbounded (u : Upstream) (w : String) (kw : Str) :
    (search_keyword u w kw).length =
      (crawl_wiki u w).countP
        (fun e => hasSubstr (lowerList kw) (lowerList (e.content.getD []))) ∧
    List.Sublist (search_keyword u w kw) (crawl_wiki u w) := by
  constructor
  · simp [search_keyword, List.countP_eq_length_filter]
  · exact List.filter_sublist _

/-- Claim C4: every match of the /search route comes from a crawled entry
whose path it copies, its snippet is the first 250 characters of that entry's
content (absent content read as the empty string), and the lowered query is a
substring of the lowered content. -/
theorem c4_snippet_and_containment (u : Upstream) (w : String) (kw : Str) :
    ∀ m ∈ search_route u w kw, ∃ e, e ∈ crawl_wiki u w ∧
      m.path = e.path ∧ m.snippet = (e.content.getD []).take 250 ∧
      hasSubstr (lowerList kw) (lowerList (e.content.getD [])) = true := by
  intro m hm
  simp only [search_route, List.mem_filterMap] at hm
  obtain ⟨e, he, hfe⟩ := hm
  by_cases hc : hasSubstr (lowerList kw) (lowerList (e.content.getD [])) = true
  · rw [if_pos hc] at hfe
    cases hfe
    exact ⟨e, he, rfl, rfl, hc⟩
  · rw [if_neg hc] at hfe
    cases hfe

/-- Claim C4 witness: in the state uHome the query "w" matches the page /H
whose content is "Wel", and the returned match carries that path and snippet. -/
theorem c4_witness :
    ∃ e, e ∈ crawl_wiki uHome "W" ∧
      (SearchMatch.mk ['/', 'H'] ['W', 'e', 'l']).path = e.path ∧
      (SearchMatch.mk ['/', 'H'] ['W', 'e', 'l']).snippet =
        (e.content.getD []).take 250 ∧
      hasSubstr (lowerList ['w']) (lowerList (e.content.getD [])) = true :=
  c4_snippet_and_containment uHome "W" ['w']
    ⟨['/', 'H'], ['W', 'e', 'l']⟩ (by decide)

/-- Claim C5 (code_bug evidence): when both selectors are supplied but one of
them is falsy (empty path, or id 0), get_page_content raises no ValueError and
issues the path-based request, contradicting the claim and the function's own
docstring that both-provided always fails before any network call. -/
theorem c5_both_selectors_not_rejected (u : Upstream) (w : String) :
    get_page_content u w (some []) (some 5) =
      .fetchedByPath [] (u.fetchPath w []) ∧
    get_page_content u w (some ['/', 'a']) (some 0) =
      .fetchedByPath ['/', 'a'] (u.fetchPath w ['/', 'a']) := by
  constructor <;> rfl

/-- Claim C6 (code_bug evidence): list_pages returns the decoded page sequence
in the order received, app.py's /pages route does send recursionLevel=full,
but the tool's list_pages request URL carries no recursionLevel parameter at
all, so not every listPages call requests full recursion. -/
theorem c6_recursion_divergence :
    (∀ u w, list_pages u w = u.pages w) ∧
    hasSubstr ("recursionLevel").data
      ((tool_list_pages_url "myorg" "myproj" "MyWiki" "7.1-preview.2")).data
      = false ∧
    ("recursionLevel", "full") ∈ app_list_pages_params := by
  refine ⟨fun _ _ => rfl, ?_, ?_⟩ <;> decide

/-- Claim C7 counterexample: a listed page without a path key yields no crawl
entry at all, so not every page known from listPages appears in crawl's
output. -/
theorem c7_counterexample :
    list_pages uNoPath "W" = [⟨none, some 1⟩] ∧ crawl_wiki uNoPath "W" = [] :=
  ⟨rfl, rfl⟩

/-- Claim C7 (amended): every listed page with a present, non-empty path
appears exactly once in crawl's output (entry counts per path match the
listing counts), while pages whose path is missing or empty are silently
skipped and never appear. -/
theorem c7_crawl_counts (u : Upstream) (w : String) (p : Str) :
    (crawl_wiki u w).countP (fun e => e.path == p) =
      if p.isEmpty then 0
      else (list_pages u w).countP (fun pg => pg.path == some p) := by
  have h1 : (crawl_wiki u w).countP (fun e => e.path == p)
      = ((crawl_wiki u w).map Entry.path).countP (fun q => q == p) := by
    rw [List.countP_map]
    rfl
  rw [h1, crawl_map_path, countP_listedPaths]

/-- Claim C8: for a fixed upstream state, search_keyword is deterministic:
two upstream oracles that agree on page listings and path-based content
fetches produce identical search results for identical arguments. -/
theorem c8_search_deterministic (u1 u2 : Upstream) (w : String) (kw : Str)
    (hpages : ∀ x, u1.pages x = u2.pages x)
    (hfetch : ∀ x p, u1.fetchPath x p = u2.fetchPath x p) :
    search_keyword u1 w kw = search_keyword u2 w kw := by
  unfold search_keyword crawl_wiki list_pages
  rw [hpages w, crawlPages_congr u1 u2 w hfetch]

/-- Claim C8 witness: uIdA and uIdB agree on listings and path fetches and
differ only in the unused id-based fetches, so their search results coincide. -/
theorem c8_witness :
    search_keyword uIdA "W" ['a'] = search_keyword uIdB "W" ['a'] :=
  c8_search_deterministic uIdA uIdB "W" ['a'] (fun _ => rfl) (fun _ _ => rfl)

/-- Claim C9: the both-selectors check is by truthiness, not presence: when a
path is supplied together with an id, and the path is empty or the id is 0,
no error is raised and the path-selector branch is taken, the id silently
ignored. -/
theorem c9_truthiness_path_branch (u : Upstream) (w : String) (p : Str)
    (i : Int) (h : p = [] ∨ i = 0) :
    get_page_content u w (some p) (some i) =
      .fetchedByPath p (u.fetchPath w p) := by
  rcases h with h | h <;> subst h <;>
    simp [get_page_content, truthyOptStr, truthyOptInt]

/-- Claim C9 witness: the empty path with id 5 takes the path branch. -/
theorem c9_witness :
    (([] : Str) = [] ∨ (5 : Int) = 0) ∧
    get_page_content uHome "W" (some []) (some 5) =
      .fetchedByPath [] (uHome.fetchPath "W" []) :=
  ⟨Or.inl rfl, c9_truthiness_path_branch uHome "W" [] 5 (Or.inl rfl)⟩

/-- Claim C10: with the empty query every crawled entry matches, failed
fetches included (their absent content is read as the empty string), so
search returns the whole crawl: one match per listed page with a non-empty
path. -/
theorem c10_empty_query_matches_all (u : Upstream) (w : String) :
    search_keyword u w [] = crawl_wiki u w ∧
    (search_keyword u w []).map Entry.path = listedPaths (list_pages u w) := by
  have hall : search_keyword u w [] = crawl_wiki u w := by
    refine List.filter_eq_self.mpr ?_
    intro e he
    simp [lowerList, hasSubstr_nil]
  refine ⟨hall, ?_⟩
  rw [hall]
  exact crawl_map_path u w

end AzureWiki
